import Mathlib

/-!
Verification of the httpx (encode/http3) HTTP client core against its
specification.  The source tree carries two digest-authentication
implementations side by side: the generator-based one in
`src/httpx/_auth.py` (`DigestAuth.auth_flow`) and the middleware-based one in
`src/httpx/middleware/auth.py` (`DigestAuth` / `_RequestDigestAuth`).  Both
are embedded below, together with the client URL/proxy/send logic from
`src/httpx/client.py` and HTTP Basic authentication.

Python byte strings are modelled as Lean `String`s (the digest hash functions
are kept abstract as a parameter `H : HashAlg → String → String`, standing
for `hashlib.<fn>(data).hexdigest()`), machine integers as `Nat`, exceptions
as `Except` / `Option`, and the nondeterministic client nonce
(`_get_client_nonce` mixes `time.ctime()` and `os.urandom`) as an explicit
parameter.
-/

set_option autoImplicit false

deriving instance DecidableEq for Except

namespace Httpx

/-! String helpers modelling the Python primitives used by the source. -/

/-- Python `str.lower()` restricted to the ASCII range used by the code. -/
def lowerStr (s : String) : String := ⟨s.data.map Char.toLower⟩

def isSpaceChar (c : Char) : Bool :=
  c = ' ' ∨ c = '\t' ∨ c = '\n' ∨ c = '\r' ∨ c = '\x0b' ∨ c = '\x0c'

/-- Python `str.strip()` (whitespace from both ends). -/
def strip (s : String) : String :=
  ⟨((s.data.dropWhile isSpaceChar).reverse.dropWhile isSpaceChar).reverse⟩

/-- Lowercase hexadecimal rendering of a natural number. -/
def toHex (n : Nat) : String := ⟨Nat.toDigits 16 n⟩

/-- Python `b"%08x" % n`: lowercase hex, zero-padded to at least 8 digits. -/
def hex8 (n : Nat) : String :=
  let s := toHex n
  (⟨List.replicate (8 - s.length) '0'⟩ : String) ++ s

/-- Python `sep.join(xs)` for strings. -/
def joinSep (sep : String) : List String → String
  | [] => ""
  | [s] => s
  | s :: rest => s ++ sep ++ joinSep sep rest

/-- Python `s.split(sep)` for a one-character separator (no maxsplit). -/
def splitOnCharAux (sep : Char) : List Char → List Char → List String
  | [], acc => [⟨acc.reverse⟩]
  | c :: rest, acc =>
    if c = sep then (⟨acc.reverse⟩ : String) :: splitOnCharAux sep rest []
    else splitOnCharAux sep rest (c :: acc)

def splitOnChar (sep : Char) (s : String) : List String :=
  splitOnCharAux sep s.data []

/-- Python `s.partition(" ")`, returning the parts before and after the first
space (the remainder is empty when there is no space). -/
def partitionSpace (s : String) : String × String :=
  match splitOnChar ' ' s with
  | [] => ("", "")
  | x :: rest => (x, joinSep " " rest)

/-- Suffix test on strings (Python `str.endswith`). -/
def strEndsWith (s suffixStr : String) : Bool :=
  suffixStr.data.isSuffixOf s.data

/-- Splitter for `re.split(b", ?", qop)` from `_resolve_qop`: splits at every
comma, consuming one following space when present. -/
def splitCommaSpace : List Char → List Char → List String
  | [], acc => [⟨acc.reverse⟩]
  | ',' :: ' ' :: rest, acc => (⟨acc.reverse⟩ : String) :: splitCommaSpace rest []
  | ',' :: rest, acc => (⟨acc.reverse⟩ : String) :: splitCommaSpace rest []
  | c :: rest, acc => splitCommaSpace rest (c :: acc)

/-- Assoc-list lookup (first hit); inserts below are by prepending, so the
most recent assignment wins, matching Python dict update semantics. -/
def dictGet {D : Type} (d : List (String × D)) (k : String) : Option D :=
  (d.find? (fun p => p.1 = k)).map Prod.snd

/-! Data model: URL, body stream, request, response.  URL is an external
value type per spec section 1/3; only its accessor fields are modelled. -/

structure Url where
  scheme : String
  host : String
  explicitPort : Option Nat
  full_path : String
deriving DecidableEq, Repr

def defaultPort (scheme : String) : Option Nat :=
  if scheme = "http" then some 80 else if scheme = "https" then some 443 else none

/-- Modelled from the spec: the `URL.port` accessor (`httpx/models.py` is not
under src/; spec sections 1 and 3 treat URL as a value type with accessor
fields and ports normalized against the scheme default).  Returns the
explicit port when present, otherwise the scheme default (80/443). -/
def Url.port (u : Url) : Option Nat := u.explicitPort <|> defaultPort u.scheme

structure BodyStream where
  can_replay : Bool
deriving DecidableEq, Repr

abbrev HeadersT := List (String × String)

/-- Case-insensitive header lookup (spec section 1: headers are a
case-insensitive multimap; lookups return the first occurrence). -/
def headerGet (hs : HeadersT) (k : String) : Option String :=
  (hs.find? (fun p => lowerStr p.1 = lowerStr k)).map Prod.snd

/-- Header assignment `request.headers[k] = v`; prepending plus
first-occurrence lookup realizes replace-on-set. -/
def headerSet (hs : HeadersT) (k v : String) : HeadersT := (k, v) :: hs

structure Request where
  method : String
  url : Url
  headers : HeadersT
  stream : BodyStream
deriving DecidableEq, Repr

structure Response where
  status_code : Nat
  headers : HeadersT
deriving DecidableEq, Repr

/-- Modelled from the spec: `StatusCode.is_client_error`
(`httpx/status_codes.py` is not under src/); the 4xx client-error status
class, i.e. `400 ≤ code ≤ 499`. -/
def is_client_error (code : Nat) : Bool := decide (400 ≤ code ∧ code ≤ 499)

/-! Digest authentication: shared pieces of `src/httpx/_auth.py` and
`src/httpx/middleware/auth.py`. -/

inductive HashAlg
  | md5
  | sha1
  | sha256
  | sha512
deriving DecidableEq, Repr

/-- The `_ALGORITHM_TO_HASH_FUNCTION` dict (`_auth.py` lines 88-97,
`middleware/auth.py` lines 66-75), as a partial map; a missing key is a
Python `KeyError` at the lookup site. -/
def _ALGORITHM_TO_HASH_FUNCTION (a : String) : Option HashAlg :=
  if a = "MD5" then some HashAlg.md5
  else if a = "MD5-SESS" then some HashAlg.md5
  else if a = "SHA" then some HashAlg.sha1
  else if a = "SHA-SESS" then some HashAlg.sha1
  else if a = "SHA-256" then some HashAlg.sha256
  else if a = "SHA-256-SESS" then some HashAlg.sha256
  else if a = "SHA-512" then some HashAlg.sha512
  else if a = "SHA-512-SESS" then some HashAlg.sha512
  else none

/-- The exceptions that can escape the digest code paths. `keyError` and
`valueError` are the plain Python exceptions (uncaught dict lookup /
unpacking failures), distinct from the library's `ProtocolError`. -/
inductive DigestError
  | protocolError
  | notImplementedError
  | keyError
  | valueError
  | requestBodyUnavailable
deriving DecidableEq, Repr

/-- `DigestAuth._resolve_qop` (`_auth.py` lines 233-246; identically
`middleware/auth.py` lines 199-209). -/
def _resolve_qop (qop : Option String) : Except DigestError (Option String) :=
  match qop with
  | none => Except.ok none
  | some q =>
    let qops := splitCommaSpace q.data []
    if "auth" ∈ qops then Except.ok (some "auth")
    else if qops = ["auth-int"] then Except.error DigestError.notImplementedError
    else Except.error DigestError.protocolError

/-- A parsed digest challenge (`_DigestAuthChallenge` / `DigestAuthChallenge`).
`opaqueField` embeds the source's field named after the HTTP `opaque`
parameter. -/
structure Challenge where
  realm : String
  nonce : String
  algorithm : String
  opaqueField : Option String
  qop : Option String
deriving DecidableEq, Repr

def NON_QUOTED_FIELDS : List String := ["algorithm", "qop", "nc"]

/-- One field of `_get_header_value` (`_auth.py` lines 214-231): quoted
`k="v"` unless the field is in `NON_QUOTED_FIELDS`. -/
def renderField (field value : String) : String :=
  if field ∈ NON_QUOTED_FIELDS then field ++ "=" ++ value
  else field ++ "=\"" ++ value ++ "\""

def _get_header_value (args : List (String × String)) : String :=
  joinSep ", " (args.map (fun p => renderField p.1 p.2))

/-- Common core of `_build_auth_header` given an `nc` value: computes the
`format_args` insertion-ordered field list (`_auth.py` lines 158-203,
`middleware/auth.py` lines 121-165, which differ only in where the nonce
count comes from).  `H alg s` stands for `hash_func(s).hexdigest()`. -/
def digestFormatArgs (H : HashAlg → String → String) (cnonce nc_value : String)
    (username password method path : String) (ch : Challenge) :
    Except DigestError (List (String × String)) :=
  match _ALGORITHM_TO_HASH_FUNCTION ch.algorithm with
  | none => Except.error DigestError.keyError
  | some alg =>
    let dg := H alg
    let A1 := username ++ ":" ++ ch.realm ++ ":" ++ password
    let A2 := method ++ ":" ++ path
    let HA2 := dg A2
    let HA1 :=
      if strEndsWith (lowerStr ch.algorithm) "-sess" then
        dg (dg A1 ++ ":" ++ ch.nonce ++ ":" ++ cnonce)
      else dg A1
    match _resolve_qop ch.qop with
    | Except.error e => Except.error e
    | Except.ok qop =>
      let key_digest := joinSep ":"
        (match qop with
         | none => [HA1, ch.nonce, HA2]
         | some q => [ch.nonce, nc_value, cnonce, q, HA2])
      let args := [("username", username), ("realm", ch.realm),
                   ("nonce", ch.nonce), ("uri", path),
                   ("response", dg (HA1 ++ ":" ++ key_digest)),
                   ("algorithm", ch.algorithm)]
      let args := args ++
        (match ch.opaqueField with
         | some o => if o = "" then [] else [("opaque", o)]
         | none => [])
      let args := args ++
        (match qop with
         | some _ => [("qop", "auth"), ("nc", nc_value), ("cnonce", cnonce)]
         | none => [])
      Except.ok args

/-- `DigestAuth._build_auth_header` from `_auth.py` lines 158-203: the nonce
count is the literal `1` (`nonce_count = 1  # TODO: implement nonce
counting`, lines 173-174). -/
def _auth_build_format_args (H : HashAlg → String → String) (cnonce : String)
    (username password method path : String) (ch : Challenge) :
    Except DigestError (List (String × String)) :=
  let nonce_count := 1
  let nc_value := hex8 nonce_count
  digestFormatArgs H cnonce nc_value username password method path ch

def _build_auth_header (H : HashAlg → String → String) (cnonce : String)
    (username password method path : String) (ch : Challenge) :
    Except DigestError String :=
  match _auth_build_format_args H cnonce username password method path ch with
  | Except.error e => Except.error e
  | Except.ok args => Except.ok ("Digest " ++ _get_header_value args)

/-- `_RequestDigestAuth._get_nonce_count` (`middleware/auth.py` lines
175-179): `per_nonce_count[nonce] += 1` on a `defaultdict(lambda: 0)`, then
return the count and its 8-digit hex form.  The updated map is returned
explicitly; in the source it is the `DigestAuth.per_nonce_count` mapping
shared by the instance (a class attribute, lines 45-46). -/
def _get_nonce_count (per : List (String × Nat)) (nonce : String) :
    (Nat × String) × List (String × Nat) :=
  let c := (dictGet per nonce).getD 0 + 1
  ((c, hex8 c), (nonce, c) :: per)

/-- `_RequestDigestAuth._build_auth_header` (`middleware/auth.py` lines
121-165): like the `_auth.py` version but the nonce count comes from
`_get_nonce_count` and the client nonce generator sees the count.  The
per-nonce map is returned updated whenever `_get_nonce_count` ran (i.e. in
every branch after the algorithm lookup succeeded). -/
def mw_build_format_args (H : HashAlg → String → String)
    (cgen : Nat → String → String) (username password method path : String)
    (ch : Challenge) (per : List (String × Nat)) :
    List (String × Nat) × Except DigestError (List (String × String)) :=
  match _ALGORITHM_TO_HASH_FUNCTION ch.algorithm with
  | none => (per, Except.error DigestError.keyError)
  | some _ =>
    let nres := _get_nonce_count per ch.nonce
    let cnonce := cgen nres.1.1 ch.nonce
    (nres.2, digestFormatArgs H cnonce nres.1.2 username password method path ch)

/-! Challenge parsing.  `urllib.request.parse_http_list` (a Python stdlib
function, external to the repository) splits a comma-separated header value,
respecting quoted strings and backslash escapes, then strips each part. -/

def parseHttpListAux : List Char → List Char → Bool → Bool → List String → List String
  | [], part, _, _, acc =>
    (if part.isEmpty then acc else (⟨part.reverse⟩ : String) :: acc).reverse
  | c :: rest, part, true, quoted, acc => parseHttpListAux rest (c :: part) false quoted acc
  | c :: rest, part, false, true, acc =>
    if c = '\\' then parseHttpListAux rest part true true acc
    else if c = '"' then parseHttpListAux rest (c :: part) false false acc
    else parseHttpListAux rest (c :: part) false true acc
  | c :: rest, part, false, false, acc =>
    if c = ',' then parseHttpListAux rest [] false false ((⟨part.reverse⟩ : String) :: acc)
    else if c = '"' then parseHttpListAux rest (c :: part) false true acc
    else parseHttpListAux rest (c :: part) false false acc

def parse_http_list (s : String) : List String :=
  (parseHttpListAux s.data [] false false []).map strip

/-- Modelled from the spec: `unquote` from `httpx/utils.py` / `httpx/_utils.py`
(neither is under src/); step 3 of the digest flow extracts quoted challenge
parameters, so this strips one pair of surrounding double quotes. -/
def unquote (value : String) : String :=
  if value.data ≠ [] ∧ value.data.head? = some '"' ∧ value.data.getLast? = some '"'
  then ⟨value.data.tail.dropLast⟩ else value

/-- Python `field.split("=", 1)` as used by `_auth.py` line 142; `none` is
the `ValueError` raised when there is no `=`. -/
def splitEqOnce (s : String) : Option (String × String) :=
  match splitOnChar '=' s with
  | [] => none
  | [_] => none
  | k :: rest => some (k, joinSep "=" rest)

/-- Python `field.split("=")` unpacked into exactly two names, as used by
`middleware/auth.py` line 240; `none` is the `ValueError` when the number of
parts is not two. -/
def splitEqExact (s : String) : Option (String × String) :=
  match splitOnChar '=' s with
  | [k, v] => some (k, v)
  | _ => none

/-- Builds `header_dict` from the parsed field list; the splitter is the per-
implementation `=`-split.  Prepending realizes dict overwrite semantics. -/
def buildHeaderDict (splitKV : String → Option (String × String)) :
    List String → List (String × String) → Option (List (String × String))
  | [], d => some d
  | f :: rest, d =>
    match splitKV (strip f) with
    | none => none
    | some (k, v) => buildHeaderDict splitKV rest ((k, unquote v) :: d)

/-- `DigestAuth._parse_challenge` from `_auth.py` lines 124-156.  A scheme
other than `Digest` or missing `realm`/`nonce` raise `ProtocolError`; a field
without `=` escapes as an uncaught `ValueError`. -/
def _parse_challenge (header : String) : Except DigestError Challenge :=
  let parts := partitionSpace header
  if lowerStr parts.1 ≠ "digest" then Except.error DigestError.protocolError
  else
    match buildHeaderDict splitEqOnce (parse_http_list parts.2) [] with
    | none => Except.error DigestError.valueError
    | some d =>
      match dictGet d "realm", dictGet d "nonce" with
      | some realm, some nonce =>
        Except.ok { realm := realm, nonce := nonce,
                    algorithm := (dictGet d "algorithm").getD "MD5",
                    opaqueField := dictGet d "opaque",
                    qop := dictGet d "qop" }
      | _, _ => Except.error DigestError.protocolError

/-- `DigestAuthChallenge.from_header` from `middleware/auth.py` lines 227-257.
All failures surface as `ValueError` (here `Except.error ()`), which the
caller turns into `ProtocolError`; a falsy (absent or empty) algorithm
becomes `"MD5"`. -/
def mwParseChallenge (header : String) : Except Unit Challenge :=
  let parts := partitionSpace header
  if lowerStr parts.1 ≠ "digest" then Except.error ()
  else
    match buildHeaderDict splitEqExact (parse_http_list parts.2) [] with
    | none => Except.error ()
    | some d =>
      match dictGet d "realm", dictGet d "nonce" with
      | some realm, some nonce =>
        Except.ok { realm := realm, nonce := nonce,
                    algorithm :=
                      (match dictGet d "algorithm" with
                       | none => "MD5"
                       | some a => if a = "" then "MD5" else a),
                    opaqueField := dictGet d "opaque",
                    qop := dictGet d "qop" }
      | _, _ => Except.error ()

/-! The two digest flows, driven against a server oracle `server : Nat →
Response` giving the response to the n-th issued request.  Each run returns
the list of requests actually issued together with the outcome. -/

/-- `DigestAuth.auth_flow` from `_auth.py` lines 105-122: check
`request.stream.can_replay()` before yielding anything, yield the request,
return non-401/unchallenged responses as-is, otherwise parse the challenge,
attach the `Authorization` header and yield exactly once more.  The source's
short-circuit `status != 401 or header absent` is realized here by matching
on the header first and then testing the status, which decides the same
disjunction (both reads are pure). -/
def auth_flow (H : HashAlg → String → String) (cnonce : String)
    (username password : String) (req : Request) (server : Nat → Response) :
    List Request × Except DigestError Response :=
  if req.stream.can_replay = false then
    ([], Except.error DigestError.requestBodyUnavailable)
  else
    let r0 := server 0
    match headerGet r0.headers "www-authenticate" with
    | none => ([req], Except.ok r0)
    | some h =>
      if r0.status_code ≠ 401 then ([req], Except.ok r0)
      else
        match _parse_challenge h with
        | Except.error e => ([req], Except.error e)
        | Except.ok ch =>
          match _build_auth_header H cnonce username password
                  req.method req.url.full_path ch with
          | Except.error e => ([req], Except.error e)
          | Except.ok hdr =>
            let req2 := { req with headers := headerSet req.headers "Authorization" hdr }
            ([req, req2], Except.ok (server 1))

/-- State carried by `_RequestDigestAuth` across its recursive `__call__`:
the shared per-nonce counter map and `num_401_responses`. -/
structure MwState where
  per_nonce_count : List (String × Nat)
  num_401_responses : Nat
deriving DecidableEq, Repr

/-- `_RequestDigestAuth.__call__` from `middleware/auth.py` lines 85-106,
with explicit recursion fuel (the source recurses unboundedly; `none` marks
fuel exhaustion, never reached in the theorems below).  Note there is no
`can_replay` check, the retry trigger is any 4xx client error carrying a
`www-authenticate` header (the source's conjunction is decided here by
matching on the header first), and the method re-invokes itself on the
authenticated request. -/
def mwCall (H : HashAlg → String → String) (cgen : Nat → String → String)
    (username password : String) :
    Nat → MwState → Nat → (Nat → Response) → Request →
    List Request × Option (Except DigestError Response)
  | 0, _, _, _, _ => ([], none)
  | fuel + 1, st, attempt, server, req =>
    let resp := server attempt
    match headerGet resp.headers "www-authenticate" with
    | none => ([req], some (Except.ok resp))
    | some h =>
      if is_client_error resp.status_code = false then ([req], some (Except.ok resp))
      else
        match mwParseChallenge h with
        | Except.error _ => ([req], some (Except.error DigestError.protocolError))
        | Except.ok ch =>
          let st1 : MwState := { st with num_401_responses := st.num_401_responses + 1 }
          if dictGet st1.per_nonce_count ch.nonce = none ∧ st1.num_401_responses > 1 then
            ([req], some (Except.ok resp))
          else
            match mw_build_format_args H cgen username password
                    req.method req.url.full_path ch st1.per_nonce_count with
            | (_, Except.error e) => ([req], some (Except.error e))
            | (per2, Except.ok args) =>
              let hdr := "Digest " ++ _get_header_value args
              let req2 := { req with headers := headerSet req.headers "Authorization" hdr }
              let next := mwCall H cgen username password fuel
                ⟨per2, st1.num_401_responses⟩ (attempt + 1) server req2
              (req :: next.1, next.2)

/-! HTTP Basic authentication (`_auth.py` lines 63-84, `middleware/auth.py`
lines 16-31): `b64encode` of `username:password` UTF-8 bytes. -/

/-- UTF-8 encoding of one character (Python `str.encode()`). -/
def utf8Char (c : Char) : List Nat :=
  let n := c.toNat
  if n < 128 then [n]
  else if n < 2048 then [192 + n / 64, 128 + n % 64]
  else if n < 65536 then [224 + n / 4096, 128 + n / 64 % 64, 128 + n % 64]
  else [240 + n / 262144, 128 + n / 4096 % 64, 128 + n / 64 % 64, 128 + n % 64]

/-- `to_bytes` on a `str`: UTF-8 bytes as naturals below 256. -/
def utf8Bytes (s : String) : List Nat := (s.data.map utf8Char).flatten

def B64_ALPHABET : String :=
  "ABCDEFGHIJKLMNOPQRSTUVWXYZabcdefghijklmnopqrstuvwxyz0123456789+/"

def b64Digit (n : Nat) : Char := B64_ALPHABET.data.getD n 'A'

/-- `base64.b64encode(..).decode()` (Python stdlib, external): standard
base64 with `=` padding. -/
def b64encode : List Nat → String
  | [] => ""
  | [a] =>
    let x := a % 256
    (⟨[b64Digit (x / 4), b64Digit (x % 4 * 16)]⟩ : String) ++ "=="
  | [a, b] =>
    let x := a % 256
    let y := b % 256
    (⟨[b64Digit (x / 4), b64Digit (x % 4 * 16 + y / 16), b64Digit (y % 16 * 4)]⟩ : String) ++ "="
  | a :: b :: c :: rest =>
    let x := a % 256
    let y := b % 256
    let z := c % 256
    (⟨[b64Digit (x / 4), b64Digit (x % 4 * 16 + y / 16),
       b64Digit (y % 16 * 4 + z / 64), b64Digit (z % 64)]⟩ : String) ++ b64encode rest

/-- `BasicAuth._build_auth_header` (`_auth.py` lines 78-84):
`b":".join((to_bytes(username), to_bytes(password)))`, base64-encoded,
prefixed with `Basic `.  (The middleware variant adds a no-op `.strip()`.) -/
def basic_build_auth_header (username password : String) : String :=
  "Basic " ++ b64encode (utf8Bytes username ++ [58] ++ utf8Bytes password)

/-- `BasicAuth.auth_flow` (`_auth.py` lines 74-76): set the `Authorization`
header on the request and yield it. -/
def basic_auth_flow (username password : String) (req : Request) : Request :=
  { req with
    headers := headerSet req.headers "Authorization" (basic_build_auth_header username password) }

/-! Client URL handling (`client.py`). -/

/-- The HSTS step of `BaseClient.merge_url` (`client.py` lines 211-220),
taking the already-joined URL; `preload` stands for the external
`hstspreload.in_hsts_preload`. -/
def merge_url (preload : String → Bool) (url : Url) : Url :=
  if url.scheme = "http" ∧ preload url.host = true then
    let port := if url.port = some 80 then none else url.port
    { url with scheme := "https", explicitPort := port }
  else url

/-- Python `f"{url.host}:{url.port}"`; an absent port prints as `None`. -/
def portRepr : Option Nat → String
  | some n => toString n
  | none => "None"

/-- The key-probing loop of `dispatcher_for_url`: `none` entries model the
conditionally-`None` tuple members and a falsy (empty) key is skipped, as in
`if proxy_key and proxy_key in self.proxies`. -/
def proxyLookup {D : Type} (proxies : List (String × D)) :
    List (Option String) → Option D
  | [] => none
  | none :: rest => proxyLookup proxies rest
  | some key :: rest =>
    if key = "" then proxyLookup proxies rest
    else
      match dictGet proxies key with
      | some d => some d
      | none => proxyLookup proxies rest

/-- `Client.dispatcher_for_url` (`client.py` lines 414-437; identically
`AsyncClient.dispatcher_for_url`, lines 846-869). -/
def dispatcher_for_url {D : Type} (dispatch : D) (proxies : List (String × D))
    (url : Url) : D :=
  if proxies.isEmpty then dispatch
  else
    let is_default_port :=
      (url.scheme = "http" ∧ url.port = some 80) ∨
      (url.scheme = "https" ∧ url.port = some 443)
    let hostname := url.host ++ ":" ++ portRepr url.port
    let proxy_keys : List (Option String) :=
      [some (url.scheme ++ "://" ++ hostname),
       if is_default_port then some (url.scheme ++ "://" ++ url.host) else none,
       some ("all://" ++ hostname),
       if is_default_port then some ("all://" ++ url.host) else none,
       some url.scheme,
       some "all"]
    match proxyLookup proxies proxy_keys with
    | some d => d
    | none => dispatch

/-- The proxy-key priority sequence exactly as the spec words it: full
`scheme://host:port`, then `scheme://host` when the port is the scheme
default, the same two with `all`, the scheme alone, and `all`. -/
def spec_proxy_keys (url : Url) : List String :=
  let is_default_port :=
    (url.scheme = "http" ∧ url.port = some 80) ∨
    (url.scheme = "https" ∧ url.port = some 443)
  let hostname := url.host ++ ":" ++ portRepr url.port
  [url.scheme ++ "://" ++ hostname] ++
    (if is_default_port then [url.scheme ++ "://" ++ url.host] else []) ++
    ["all://" ++ hostname] ++
    (if is_default_port then ["all://" ++ url.host] else []) ++
    [url.scheme, "all"]

/-- First proxies entry hit along a key list. -/
def firstMatch {D : Type} (proxies : List (String × D)) : List String → Option D
  | [] => none
  | k :: rest =>
    match dictGet proxies k with
    | some d => some d
    | none => firstMatch proxies rest

/-- The spec's reading of dispatcher selection: try the keys in priority
order, first match wins, otherwise the direct dispatcher. -/
def spec_dispatcher_lookup {D : Type} (dispatch : D)
    (proxies : List (String × D)) (url : Url) : D :=
  match firstMatch proxies (spec_proxy_keys url) with
  | some d => d
  | none => dispatch

/-! `Client.send` / `AsyncClient.send` (`client.py` lines 468-496 and
901-931).  Everything after the scheme guard is abstracted into `drive`,
which consumes the selected dispatcher; the guard runs first, so an invalid
scheme yields `InvalidURL` with `drive` never applied and no dispatcher
chosen. -/

inductive ClientError
  | invalidURL
deriving DecidableEq, Repr

def Client_send {D R : Type} (dispatch : D) (proxies : List (String × D))
    (drive : D → Request → R) (req : Request) : Except ClientError R :=
  if req.url.scheme ≠ "http" ∧ req.url.scheme ≠ "https" then
    Except.error ClientError.invalidURL
  else Except.ok (drive (dispatcher_for_url dispatch proxies req.url) req)

def AsyncClient_send {D R : Type} (dispatch : D) (proxies : List (String × D))
    (drive : D → Request → R) (req : Request) : Except ClientError R :=
  if req.url.scheme ≠ "http" ∧ req.url.scheme ≠ "https" then
    Except.error ClientError.invalidURL
  else Except.ok (drive (dispatcher_for_url dispatch proxies req.url) req)

/-! Concrete fixtures used to evaluate the definitions at specific inputs. -/

/-- A concrete stand-in hash family: `H0 alg s` returns `s` itself, enough to
trace which data the header builder digests. -/
def H0 : HashAlg → String → String := fun _ s => s

/-- A concrete client-nonce generator showing the count it was given. -/
def cg0 : Nat → String → String := fun n s => "cn" ++ toString n ++ s

def urlEx : Url :=
  { scheme := "https", host := "example.org", explicitPort := none, full_path := "/" }

def reqC5 : Request := { method := "GET", url := urlEx, headers := [], stream := ⟨true⟩ }

/-- A request whose body stream cannot be replayed. -/
def reqNR : Request := { method := "GET", url := urlEx, headers := [], stream := ⟨false⟩ }

def chalHdr : String := "Digest realm=\"r\", nonce=\"abc\", qop=\"auth\""

def resp401 : Response := { status_code := 401, headers := [("www-authenticate", chalHdr)] }

def resp200 : Response := { status_code := 200, headers := [] }

def resp403 : Response := { status_code := 403, headers := [("www-authenticate", chalHdr)] }

def server200 : Nat → Response := fun _ => resp200

def serverC5 : Nat → Response := fun n => if n = 0 then resp401 else resp200

def server403 : Nat → Response := fun n => if n = 0 then resp403 else resp200

def serverTwo401 : Nat → Response := fun n => if n < 2 then resp401 else resp200

def chC1 : Challenge :=
  { realm := "r", nonce := "abc", algorithm := "MD5", opaqueField := none, qop := some "auth" }

def chFoo : Challenge :=
  { realm := "r", nonce := "n", algorithm := "FOO", opaqueField := none, qop := some "auth" }

def chBar : Challenge :=
  { realm := "r", nonce := "n", algorithm := "BAR", opaqueField := none, qop := some "auth" }

/-- The `Authorization` value `auth_flow` attaches for `chalHdr` under `H0`
with client nonce `cn`, username `u`, password `p`, `GET /`. -/
def hdrC5 : String :=
  "Digest username=\"u\", realm=\"r\", nonce=\"abc\", uri=\"/\", response=\"u:r:p:abc:00000001:cn:auth:GET:/\", algorithm=MD5, qop=auth, nc=00000001, cnonce=\"cn\""

def req2C5 : Request :=
  { reqC5 with headers := headerSet reqC5.headers "Authorization" hdrC5 }

/-- The eight algorithm names recognized by `_ALGORITHM_TO_HASH_FUNCTION`. -/
def ALGORITHM_NAMES : List String :=
  ["MD5", "MD5-SESS", "SHA", "SHA-SESS", "SHA-256", "SHA-256-SESS", "SHA-512", "SHA-512-SESS"]

/-- The `nc` field of a successfully built `format_args` list. -/
def ncOfArgs : Except DigestError (List (String × String)) → Option String
  | Except.ok args => dictGet args "nc"
  | Except.error _ => none

def preloadW : String → Bool := fun h => h == "example.com"

def uHttp8080 : Url :=
  { scheme := "http", host := "example.com", explicitPort := some 8080, full_path := "/" }

def uC8 : Url := { scheme := "http", host := "example.com", explicitPort := none, full_path := "/" }

def reqFtp : Request :=
  { method := "GET",
    url := { scheme := "ftp", host := "h", explicitPort := none, full_path := "/" },
    headers := [], stream := ⟨true⟩ }

/-! General-purpose lemmas shared by the claim theorems. -/

theorem string_data_append (s t : String) : (s ++ t).data = s.data ++ t.data := by
  obtain ⟨a⟩ := s
  obtain ⟨b⟩ := t
  rfl

theorem string_ne_empty_of_left {s : String} (t : String) (hs : s.data ≠ []) :
    s ++ t ≠ "" := by
  intro h
  apply hs
  have hd : (s ++ t).data = ([] : List Char) := by rw [h]
  rw [string_data_append] at hd
  exact (List.append_eq_nil.mp hd).1

theorem utf8Bytes_append (s t : String) :
    utf8Bytes (s ++ t) = utf8Bytes s ++ utf8Bytes t := by
  simp [utf8Bytes, string_data_append]

theorem headerGet_set (hs : HeadersT) (k v : String) :
    headerGet (headerSet hs k v) k = some v := by
  unfold headerGet headerSet
  rw [List.find?]
  rw [show (decide (lowerStr k = lowerStr k)) = true from decide_eq_true rfl]
  rfl

theorem algorithm_map_eq_none {a : String} (h : a ∉ ALGORITHM_NAMES) :
    _ALGORITHM_TO_HASH_FUNCTION a = none := by
  simp only [ALGORITHM_NAMES, List.mem_cons, List.not_mem_nil, or_false, not_or] at h
  obtain ⟨h1, h2, h3, h4, h5, h6, h7, h8⟩ := h
  simp [_ALGORITHM_TO_HASH_FUNCTION, h1, h2, h3, h4, h5, h6, h7, h8]

/-! Claim theorems. -/

/-- C1: the middleware `_get_nonce_count` does implement the claimed per-
nonce counter — for nonce `abc` the first use yields count 1 (`nc=00000001`)
and the second, resuming from the returned shared map, yields count 2
(`nc=00000002`) — but the generator-based `_auth.py` `_build_auth_header`
hardcodes `nonce_count = 1` (source comment `TODO: implement nonce
counting`), so both a first and a second retry for the same server nonce
carry `nc=00000001` in the `Authorization` header. -/
theorem C1_nc_counter_divergence :
    (_get_nonce_count [] "abc").1 = (1, "00000001") ∧
    (_get_nonce_count (_get_nonce_count [] "abc").2 "abc").1 = (2, "00000002") ∧
    ncOfArgs (_auth_build_format_args H0 "cn" "u" "p" "GET" "/" chC1) = some "00000001" ∧
    ncOfArgs (_auth_build_format_args H0 "cn2" "u" "p" "GET" "/" chC1) = some "00000001" := by
  decide

/-- C2 counterexample: a challenge whose algorithm is `FOO` makes header
building fail with a plain dict `KeyError`, not the claimed
`ProtocolError`. -/
theorem C2_unknown_algorithm_cx :
    _auth_build_format_args H0 "cn" "u" "p" "GET" "/" chFoo =
      Except.error DigestError.keyError ∧
    DigestError.keyError ≠ DigestError.protocolError := by
  decide

/-- C2 (amended): for every challenge whose algorithm is not one of the
eight listed names, building the authenticated request fails with an
uncaught `KeyError` (not `ProtocolError`), in both implementations; each
listed name maps to its respective hash function. -/
theorem C2_algorithm_map_amended :
    (∀ (H : HashAlg → String → String) (cn u p m pth : String) (ch : Challenge),
        ch.algorithm ∉ ALGORITHM_NAMES →
        _auth_build_format_args H cn u p m pth ch = Except.error DigestError.keyError) ∧
    (∀ (H : HashAlg → String → String) (cg : Nat → String → String)
        (u p m pth : String) (ch : Challenge) (per : List (String × Nat)),
        ch.algorithm ∉ ALGORITHM_NAMES →
        (mw_build_format_args H cg u p m pth ch per).2 = Except.error DigestError.keyError) ∧
    _ALGORITHM_TO_HASH_FUNCTION "MD5" = some HashAlg.md5 ∧
    _ALGORITHM_TO_HASH_FUNCTION "MD5-SESS" = some HashAlg.md5 ∧
    _ALGORITHM_TO_HASH_FUNCTION "SHA" = some HashAlg.sha1 ∧
    _ALGORITHM_TO_HASH_FUNCTION "SHA-SESS" = some HashAlg.sha1 ∧
    _ALGORITHM_TO_HASH_FUNCTION "SHA-256" = some HashAlg.sha256 ∧
    _ALGORITHM_TO_HASH_FUNCTION "SHA-256-SESS" = some HashAlg.sha256 ∧
    _ALGORITHM_TO_HASH_FUNCTION "SHA-512" = some HashAlg.sha512 ∧
    _ALGORITHM_TO_HASH_FUNCTION "SHA-512-SESS" = some HashAlg.sha512 := by
  refine ⟨?_, ?_, by decide, by decide, by decide, by decide, by decide, by decide, by decide, by decide⟩
  · intro H cn u p m pth ch h
    simp [_auth_build_format_args, digestFormatArgs, algorithm_map_eq_none h]
  · intro H cg u p m pth ch per h
    simp [mw_build_format_args, algorithm_map_eq_none h]

/-- C2 witness: the amended theorem applied at a concrete unknown
algorithm. -/
theorem C2_algorithm_map_amended_witness :
    _auth_build_format_args H0 "cn" "u" "p" "GET" "/" chBar =
      Except.error DigestError.keyError :=
  C2_algorithm_map_amended.1 H0 "cn" "u" "p" "GET" "/" chBar (by decide)

/-- C6: `_resolve_qop` resolves an absent qop to none; a value whose comma-
separated list contains `auth` to `auth`; a list of exactly `auth-int` to
`NotImplementedError`; and anything else to `ProtocolError`. -/
theorem C6_resolve_qop_spec (q : String) :
    _resolve_qop none = Except.ok none ∧
    ("auth" ∈ splitCommaSpace q.data [] →
      _resolve_qop (some q) = Except.ok (some "auth")) ∧
    (splitCommaSpace q.data [] = ["auth-int"] →
      _resolve_qop (some q) = Except.error DigestError.notImplementedError) ∧
    ("auth" ∉ splitCommaSpace q.data [] → splitCommaSpace q.data [] ≠ ["auth-int"] →
      _resolve_qop (some q) = Except.error DigestError.protocolError) := by
  refine ⟨rfl, ?_, ?_, ?_⟩
  · intro h
    simp [_resolve_qop, h]
  · intro h
    have hm : "auth" ∉ splitCommaSpace q.data [] := by
      rw [h]; decide
    simp [_resolve_qop, h, hm]
  · intro h1 h2
    simp [_resolve_qop, h1, h2]

/-- C6 witness: the three hypothetical cases at concrete qop values. -/
theorem C6_resolve_qop_spec_witness :
    _resolve_qop (some "auth,auth-int") = Except.ok (some "auth") ∧
    _resolve_qop (some "auth-int") = Except.error DigestError.notImplementedError ∧
    _resolve_qop (some "zz") = Except.error DigestError.protocolError :=
  ⟨(C6_resolve_qop_spec "auth,auth-int").2.1 (by decide),
   (C6_resolve_qop_spec "auth-int").2.2.1 (by decide),
   (C6_resolve_qop_spec "zz").2.2.2 (by decide) (by decide)⟩

/-- C9: Basic auth attaches `Authorization: Basic base64(username:password)`
to the request, and for `tomchristie`/`password123` the value is exactly
`Basic dG9tY2hyaXN0aWU6cGFzc3dvcmQxMjM=`. -/
theorem C9_basic_auth :
    (∀ (username password : String) (req : Request),
        headerGet (basic_auth_flow username password req).headers "Authorization" =
          some ("Basic " ++ b64encode (utf8Bytes (username ++ ":" ++ password)))) ∧
    basic_build_auth_header "tomchristie" "password123" =
      "Basic dG9tY2hyaXN0aWU6cGFzc3dvcmQxMjM=" := by
  constructor
  · intro u p req
    have hb : utf8Bytes (u ++ ":" ++ p) = utf8Bytes u ++ [58] ++ utf8Bytes p := by
      rw [utf8Bytes_append, utf8Bytes_append]
      rfl
    rw [basic_auth_flow, headerGet_set, basic_build_auth_header, hb]
  · decide

/-- C10: for a request whose URL scheme is neither `http` nor `https`, both
`Client.send` and `AsyncClient.send` fail with `InvalidURL` regardless of
the configured dispatcher, proxy map or middleware driver — none of them is
consulted and no network operation happens. -/
theorem C10_invalid_scheme_guard (req : Request)
    (h : req.url.scheme ≠ "http" ∧ req.url.scheme ≠ "https") :
    ∀ (D R : Type) (dispatch : D) (proxies : List (String × D)) (drive : D → Request → R),
      Client_send dispatch proxies drive req = Except.error ClientError.invalidURL ∧
      AsyncClient_send dispatch proxies drive req = Except.error ClientError.invalidURL := by
  intro D R dispatch proxies drive
  constructor
  · unfold Client_send
    rw [if_pos h]
  · unfold AsyncClient_send
    rw [if_pos h]

/-- C3 counterexample: a request whose stream has `can_replay = false` is
nevertheless issued by the middleware digest flow (one request reaches the
server and its 200 response is returned), so the flow does not fail with
`RequestBodyUnavailable` before the original request is issued. -/
theorem C3_middleware_sends_nonreplayable_cx :
    reqNR.stream.can_replay = false ∧
    (mwCall H0 cg0 "u" "p" 5 ⟨[], 0⟩ 0 server200 reqNR).1 = [reqNR] ∧
    (mwCall H0 cg0 "u" "p" 5 ⟨[], 0⟩ 0 server200 reqNR).2 = some (Except.ok resp200) := by
  decide

/-- C3 (amended): the generator-based `DigestAuth.auth_flow` raises
`RequestBodyUnavailable` before issuing any request whenever the body stream
cannot be replayed; the middleware-based digest flow performs no such check
and always issues the original request first. -/
theorem C3_replay_guard_amended :
    (∀ (H : HashAlg → String → String) (cn u p : String) (req : Request)
        (server : Nat → Response),
        req.stream.can_replay = false →
        auth_flow H cn u p req server =
          ([], Except.error DigestError.requestBodyUnavailable)) ∧
    (∀ (H : HashAlg → String → String) (cg : Nat → String → String) (u p : String)
        (fuel : Nat) (st : MwState) (att : Nat) (server : Nat → Response) (req : Request),
        (mwCall H cg u p (fuel + 1) st att server req).1.head? = some req) := by
  constructor
  · intro H cn u p req server h
    unfold auth_flow
    rw [if_pos h]
  · intro H cg u p fuel st att server req
    simp only [mwCall]
    repeat' split
    all_goals rfl

/-- C3 witness: the amended generator-flow statement at a concrete
non-replayable request. -/
theorem C3_replay_guard_amended_witness :
    auth_flow H0 "cn" "u" "p" reqNR server200 =
      ([], Except.error DigestError.requestBodyUnavailable) :=
  C3_replay_guard_amended.1 H0 "cn" "u" "p" reqNR server200 rfl

/-- C4 counterexample: the middleware digest flow receives a 403 (not 401)
response carrying a digest `www-authenticate` header and does not return it
unchanged — it issues a second, authenticated request and returns that
request's 200 response. -/
theorem C4_middleware_403_cx :
    resp403.status_code ≠ 401 ∧
    (mwCall H0 cg0 "u" "p" 5 ⟨[], 0⟩ 0 server403 reqC5).1.length = 2 ∧
    (mwCall H0 cg0 "u" "p" 5 ⟨[], 0⟩ 0 server403 reqC5).2 = some (Except.ok resp200) := by
  decide

/-- C4 (amended): the generator-based flow returns the initial response
unchanged, with no further request, exactly when its status is not 401 or it
carries no `www-authenticate` header; the middleware-based flow does so only
when the status is not a 4xx client error or the header is absent. -/
theorem C4_pass_through_amended :
    (∀ (H : HashAlg → String → String) (cn u p : String) (req : Request)
        (server : Nat → Response),
        req.stream.can_replay = true →
        ((server 0).status_code ≠ 401 ∨
          headerGet (server 0).headers "www-authenticate" = none) →
        auth_flow H cn u p req server = ([req], Except.ok (server 0))) ∧
    (∀ (H : HashAlg → String → String) (cg : Nat → String → String) (u p : String)
        (fuel : Nat) (st : MwState) (att : Nat) (server : Nat → Response) (req : Request),
        (is_client_error (server att).status_code = false ∨
          headerGet (server att).headers "www-authenticate" = none) →
        mwCall H cg u p (fuel + 1) st att server req =
          ([req], some (Except.ok (server att)))) := by
  constructor
  · intro H cn u p req server hrep hcase
    unfold auth_flow
    rw [if_neg (by simp [hrep])]
    cases hh : headerGet (server 0).headers "www-authenticate" with
    | none => simp [hh]
    | some h =>
      rcases hcase with hs | hn
      · simp only [hh]
        rw [if_pos hs]
      · rw [hh] at hn
        cases hn
  · intro H cg u p fuel st att server req hcase
    simp only [mwCall]
    cases hh : headerGet (server att).headers "www-authenticate" with
    | none => simp [hh]
    | some h =>
      rcases hcase with hs | hn
      · simp only [hh]
        rw [if_pos hs]
      · rw [hh] at hn
        cases hn

/-- C4 witness: the amended generator-flow statement at a concrete 200
response. -/
theorem C4_pass_through_amended_witness :
    auth_flow H0 "cn" "u" "p" reqC5 server200 = ([reqC5], Except.ok resp200) :=
  C4_pass_through_amended.1 H0 "cn" "u" "p" reqC5 server200 rfl (Or.inl (by decide))

/-- C5 counterexample: against a server that answers the first two requests
with 401 challenges carrying the same nonce and then a 200, the middleware
digest flow issues three requests — more than the claimed two in total. -/
theorem C5_middleware_three_requests_cx :
    (mwCall H0 cg0 "u" "p" 5 ⟨[], 0⟩ 0 serverTwo401 reqC5).1.length = 3 ∧
    (mwCall H0 cg0 "u" "p" 5 ⟨[], 0⟩ 0 serverTwo401 reqC5).2 = some (Except.ok resp200) := by
  decide

/-- C5 (amended): the generator-based flow, on a 401 whose digest challenge
parses and whose authorization header builds, issues exactly one
authenticated follow-up request and returns that request's response — at
most two requests; the middleware-based flow re-invokes itself on the
follow-up response and can exceed two requests (see its counterexample). -/
theorem C5_two_request_flow_amended
    (H : HashAlg → String → String) (cn u p : String) (req : Request)
    (server : Nat → Response) (h hdr : String) (ch : Challenge)
    (hrep : req.stream.can_replay = true)
    (hst : (server 0).status_code = 401)
    (hh : headerGet (server 0).headers "www-authenticate" = some h)
    (hp : _parse_challenge h = Except.ok ch)
    (hb : _build_auth_header H cn u p req.method req.url.full_path ch = Except.ok hdr) :
    auth_flow H cn u p req server =
      ([req, { req with headers := headerSet req.headers "Authorization" hdr }],
        Except.ok (server 1)) := by
  unfold auth_flow
  rw [if_neg (by simp [hrep])]
  simp only [hh, hst, hp, hb]
  simp

/-- C5 witness: the amended statement at a concrete parseable challenge. -/
theorem C5_two_request_flow_amended_witness :
    auth_flow H0 "cn" "u" "p" reqC5 serverC5 = ([reqC5, req2C5], Except.ok resp200) :=
  C5_two_request_flow_amended H0 "cn" "u" "p" reqC5 serverC5 chalHdr hdrC5 chC1
    rfl (by decide) (by decide) (by decide) (by decide)

/-- C7: an `http` URL whose host is on the HSTS preload list is rewritten to
`https` with the port omitted when it equals 80 and preserved otherwise,
host and path untouched; `https` URLs and hosts off the list are left
unchanged by this step. -/
theorem C7_hsts_upgrade (preload : String → Bool) (u : Url) :
    (u.scheme = "http" → preload u.host = true →
      (merge_url preload u).scheme = "https" ∧
      (merge_url preload u).host = u.host ∧
      (merge_url preload u).full_path = u.full_path ∧
      (u.port = some 80 → (merge_url preload u).explicitPort = none) ∧
      (u.port ≠ some 80 → (merge_url preload u).explicitPort = u.port)) ∧
    (u.scheme = "https" ∨ preload u.host = false → merge_url preload u = u) := by
  constructor
  · intro h1 h2
    unfold merge_url
    rw [if_pos ⟨h1, h2⟩]
    refine ⟨rfl, rfl, rfl, ?_, ?_⟩
    · intro hp
      simp [hp]
    · intro hp
      simp [hp]
  · intro hcase
    unfold merge_url
    rcases hcase with h | h
    · rw [if_neg]
      rintro ⟨hx, -⟩
      rw [h] at hx
      exact absurd hx (by decide)
    · rw [if_neg]
      rintro ⟨-, hx⟩
      rw [h] at hx
      exact absurd hx (by decide)

/-- C7 witness: a preloaded host on `http` with explicit port 8080 upgrades
to `https` keeping the port. -/
theorem C7_hsts_upgrade_witness :
    (merge_url preloadW uHttp8080).scheme = "https" ∧
    (merge_url preloadW uHttp8080).explicitPort = some 8080 := by
  have h := (C7_hsts_upgrade preloadW uHttp8080).1 rfl (by decide)
  exact ⟨h.1, (h.2.2.2.2 (by decide)).trans (by decide)⟩

/-- C8: dispatcher selection tries `scheme://host:port`, `scheme://host`
(default port only), `all://host:port`, `all://host` (default port only),
the scheme alone, then `all`, in that order; the first key present in the
proxies map wins, otherwise the direct dispatcher is used. -/
theorem C8_dispatcher_priority {D : Type} (dispatch : D) (proxies : List (String × D))
    (u : Url) (hs : u.scheme = "http" ∨ u.scheme = "https") :
    dispatcher_for_url dispatch proxies u = spec_dispatcher_lookup dispatch proxies u := by
  have step : ∀ (k : String) (rest : List (Option String)), k ≠ "" →
      proxyLookup proxies (some k :: rest) =
        (match dictGet proxies k with
         | some d => some d
         | none => proxyLookup proxies rest) := by
    intro k rest hk
    simp [proxyLookup, hk]
  have bridge : ∀ opts : List (Option String),
      (∀ k : String, some k ∈ opts → k ≠ "") →
      proxyLookup proxies opts = firstMatch proxies opts.reduceOption := by
    intro opts
    induction opts with
    | nil => intro _; rfl
    | cons o rest ih =>
      intro hk
      cases o with
      | none =>
        rw [show proxyLookup proxies (none :: rest) = proxyLookup proxies rest from rfl,
          List.reduceOption_cons_of_none]
        exact ih (fun k hkm => hk k (List.mem_cons_of_mem _ hkm))
      | some k =>
        rw [step k _ (hk k (List.mem_cons_self _ _)), List.reduceOption_cons_of_some]
        cases hd : dictGet proxies k with
        | some d => simp [firstMatch, hd]
        | none =>
          simp only [firstMatch, hd]
          exact ih (fun x hx => hk x (List.mem_cons_of_mem _ hx))
  have hdata : u.scheme.data ≠ [] := by
    rcases hs with h | h <;> rw [h] <;> decide
  have hscheme_ne : u.scheme ≠ "" := by
    intro hx
    apply hdata
    rw [hx]
  have hk1 : ∀ t r : String, u.scheme ++ t ++ r ≠ "" := by
    intro t r
    apply string_ne_empty_of_left
    rw [string_data_append]
    intro hx
    exact hdata (List.append_eq_nil.mp hx).1
  have hk3 : ∀ r : String, "all://" ++ r ≠ "" := by
    intro r
    apply string_ne_empty_of_left
    decide
  by_cases hemp : proxies.isEmpty = true
  · have hpnil : proxies = [] := by
      cases proxies with
      | nil => rfl
      | cons a l => simp [List.isEmpty] at hemp
    subst hpnil
    have hfm : ∀ ks : List String, firstMatch ([] : List (String × D)) ks = none := by
      intro ks
      induction ks with
      | nil => rfl
      | cons k rest ih => simp [firstMatch, dictGet, ih]
    simp [dispatcher_for_url, spec_dispatcher_lookup, hfm]
  · unfold dispatcher_for_url spec_dispatcher_lookup spec_proxy_keys
    rw [if_neg hemp]
    by_cases hdef : (u.scheme = "http" ∧ u.port = some 80) ∨
        (u.scheme = "https" ∧ u.port = some 443)
    · simp only [if_pos hdef]
      rw [bridge _ ?hne]
      case hne =>
        intro k hk
        simp only [List.mem_cons, List.not_mem_nil, or_false, Option.some.injEq,
          reduceCtorEq, false_or] at hk
        rcases hk with rfl | rfl | rfl | rfl | rfl | rfl
        · exact hk1 _ _
        · exact hk1 _ _
        · exact hk3 _
        · exact hk3 _
        · exact hscheme_ne
        · decide
      simp [List.reduceOption]
    · simp only [if_neg hdef]
      rw [bridge _ ?hne2]
      case hne2 =>
        intro k hk
        simp only [List.mem_cons, List.not_mem_nil, or_false, Option.some.injEq,
          reduceCtorEq, false_or] at hk
        rcases hk with rfl | rfl | rfl | rfl
        · exact hk1 _ _
        · exact hk3 _
        · exact hscheme_ne
        · decide
      simp [List.reduceOption]

/-- C8 witness: a concrete lookup where only the `all` fallback key is
present. -/
theorem C8_dispatcher_priority_witness :
    dispatcher_for_url 0 [("all", 7)] uC8 = spec_dispatcher_lookup 0 [("all", 7)] uC8 ∧
    dispatcher_for_url 0 [("all", 7)] uC8 = 7 :=
  ⟨C8_dispatcher_priority 0 [("all", 7)] uC8 (Or.inl rfl), by decide⟩

/-- C10 witness: a concrete `ftp` request fails the guard in both clients. -/
theorem C10_invalid_scheme_guard_witness :
    Client_send (0 : Nat) [] (fun _ r => r) reqFtp = Except.error ClientError.invalidURL ∧
    AsyncClient_send (0 : Nat) [] (fun _ r => r) reqFtp = Except.error ClientError.invalidURL :=
  C10_invalid_scheme_guard reqFtp ⟨by decide, by decide⟩ Nat Request 0 [] (fun _ r => r)

end Httpx
